import Mathlib

/-!
Verification development for the RetailAI conversational assistant.

This file shallowly embeds the core of the repository — the tool registry
(src/tools/__init__.py with the weather, stock and calculator tools under
src/tools/impl/), the intent classifier (src/agents/intent_agent.py), the
time sub-agent (src/agents/time_agent.py) and the general tool-using agent
with its turn router (src/main.py) — as executable Lean definitions, and
proves the specification claims about them.

Modelling conventions:
- The opaque model-completion collaborator is a parameter: each embedded
  operation that calls it takes the model's response as an `Except` value
  (`.error` = upstream call failure, `.ok` = returned payload).
- Python exceptions are modelled with `Except String`; code that cannot
  raise is a plain total function.
- The wall clock (`datetime.now(tz)`) is a parameter `clock : String → Now`
  giving the local time fields per timezone; `pytz.all_timezones` is a
  parameter `zs : List String`.
- JSON argument texts are modelled as already-parsed association lists;
  a malformed JSON text is represented by `Except.error` (json.loads
  failure), matching the source's fallback-to-empty-dict handling.
- Python floats are modelled as exact rationals; no claim in scope
  depends on IEEE rounding.
-/

/-! ## String utilities: Python's substring containment (`kw in s`) -/

def isPrefixChars : List Char → List Char → Bool
  | [], _ => true
  | _ :: _, [] => false
  | a :: as, b :: bs => a == b && isPrefixChars as bs

def containsChars (needle : List Char) : List Char → Bool
  | [] => isPrefixChars needle []
  | c :: rest => isPrefixChars needle (c :: rest) || containsChars needle rest

/-- Python's `needle in hay` on strings. -/
def strContains (hay needle : String) : Bool :=
  containsChars needle.toList hay.toList

/-! ## Python-value model (JSON-decoded arguments and tool results) -/

inductive PyVal where
  | pstr (s : String)
  | pint (z : Int)
  | pnum (q : ℚ)
deriving Repr, DecidableEq

/-- Python `str()` of a modelled value (used inside f-strings). -/
def pyStr : PyVal → String
  | .pstr s => s
  | .pint z => toString z
  | .pnum q => toString q

/-- Python's type name of a modelled value (appears in TypeError texts). -/
def pyTypeName : PyVal → String
  | .pstr _ => "str"
  | .pint _ => "int"
  | .pnum _ => "float"

def lookupVal (params : List (String × PyVal)) (k : String) : Option PyVal :=
  (params.find? (fun p => p.1 == k)).map (fun p => p.2)

/-- `params.get(k, d)` on the modelled argument dictionary. -/
def getParam (params : List (String × PyVal)) (k : String) (d : PyVal) : PyVal :=
  (lookupVal params k).getD d

/-- Structured tool result: the `{"success": ..., "data"/"error": ...}` dicts
the tools build (src/tools/__init__.py and src/tools/impl/). -/
structure TRes where
  success : Bool
  data : List (String × PyVal) := []
  error : Option String := none
deriving Repr, DecidableEq

/-! ## Arithmetic evaluator: Python `eval` restricted to the calculator's
allowed characters `0123456789+-*/(). ` (src/tools/impl/calculator_tool.py
line 36). Numbers are int or float; floats are modelled as exact rationals. -/

inductive PyNum where
  | int (z : Int)
  | float (q : ℚ)
deriving Repr, DecidableEq

def PyNum.toQ : PyNum → ℚ
  | .int z => (z : ℚ)
  | .float q => q

def PyNum.isInt : PyNum → Bool
  | .int _ => true
  | .float _ => false

def pyAdd (a b : PyNum) : PyNum :=
  match a, b with
  | .int x, .int y => .int (x + y)
  | _, _ => .float (a.toQ + b.toQ)

def pySub (a b : PyNum) : PyNum :=
  match a, b with
  | .int x, .int y => .int (x - y)
  | _, _ => .float (a.toQ - b.toQ)

def pyMul (a b : PyNum) : PyNum :=
  match a, b with
  | .int x, .int y => .int (x * y)
  | _, _ => .float (a.toQ * b.toQ)

def pyNeg (a : PyNum) : PyNum :=
  match a with
  | .int x => .int (-x)
  | .float q => .float (-q)

/-- Python true division `/`: always a float; ZeroDivisionError on zero. -/
def pyDiv (a b : PyNum) : Except String PyNum :=
  if b.toQ = 0 then
    if a.isInt && b.isInt then .error "division by zero"
    else .error "float division by zero"
  else .ok (.float (a.toQ / b.toQ))

/-- Python floor division. -/
def pyFloorDiv (a b : PyNum) : Except String PyNum :=
  match a, b with
  | .int x, .int y =>
      if y = 0 then .error "integer division or modulo by zero"
      else .ok (.int (Int.fdiv x y))
  | _, _ =>
      if b.toQ = 0 then .error "float floor division by zero"
      else .ok (.float ((⌊a.toQ / b.toQ⌋ : ℤ) : ℚ))

/-- Python power. An irrational result (non-integral float exponent) is not
representable in the rational model and yields a model-level error; no claim
in scope exercises that corner. -/
def pyPow (a b : PyNum) : Except String PyNum :=
  match b with
  | .int n =>
      if 0 ≤ n then
        match a with
        | .int x => .ok (.int (x ^ n.toNat))
        | .float q => .ok (.float (q ^ n.toNat))
      else
        if a.toQ = 0 then .error "0.0 cannot be raised to a negative power"
        else .ok (.float ((a.toQ ^ (-n).toNat)⁻¹))
  | .float e =>
      if e.den = 1 then
        if 0 ≤ e.num then .ok (.float (a.toQ ^ e.num.toNat))
        else
          if a.toQ = 0 then .error "0.0 cannot be raised to a negative power"
          else .ok (.float ((a.toQ ^ (-e.num).toNat)⁻¹))
      else .error "irrational power not representable in the rational model"

inductive Tok where
  | num (v : PyNum)
  | plus | minus | star | slash | dslash | dstar | lparen | rparen
deriving Repr, DecidableEq

/-- Collect a maximal run of digit/dot characters. -/
def numRun : List Char → List Char × List Char
  | [] => ([], [])
  | c :: cs =>
      if c.isDigit || c == '.' then
        let p := numRun cs
        (c :: p.1, p.2)
      else ([], c :: cs)

def digitsToNat (ds : List Char) : Nat :=
  ds.foldl (fun acc c => acc * 10 + (c.toNat - '0'.toNat)) 0

/-- Lex one digit/dot run into a number token (int if no dot, float if one
dot, a syntax error otherwise — mirroring Python's lexer on these inputs). -/
def runToNum (run : List Char) : Except String PyNum :=
  let dots := (run.filter (fun c => c == '.')).length
  if dots = 0 then .ok (.int (digitsToNat run))
  else if dots = 1 then
    if run.length = 1 then .error "invalid syntax"
    else
      let ip := run.takeWhile (fun c => c != '.')
      let fp := (run.dropWhile (fun c => c != '.')).drop 1
      .ok (.float ((digitsToNat ip : ℚ) + (digitsToNat fp : ℚ) / ((10 : ℚ) ^ fp.length)))
  else .error "invalid syntax"

def tokenizeF : Nat → List Char → Except String (List Tok)
  | 0, _ => .error "lexer fuel exhausted"
  | _ + 1, [] => .ok []
  | fuel + 1, c :: cs =>
      if c == ' ' then tokenizeF fuel cs
      else if c == '(' then (tokenizeF fuel cs).map (Tok.lparen :: ·)
      else if c == ')' then (tokenizeF fuel cs).map (Tok.rparen :: ·)
      else if c == '+' then (tokenizeF fuel cs).map (Tok.plus :: ·)
      else if c == '-' then (tokenizeF fuel cs).map (Tok.minus :: ·)
      else if c == '*' then
        match cs with
        | '*' :: cs2 => (tokenizeF fuel cs2).map (Tok.dstar :: ·)
        | _ => (tokenizeF fuel cs).map (Tok.star :: ·)
      else if c == '/' then
        match cs with
        | '/' :: cs2 => (tokenizeF fuel cs2).map (Tok.dslash :: ·)
        | _ => (tokenizeF fuel cs).map (Tok.slash :: ·)
      else if c.isDigit || c == '.' then
        let p := numRun (c :: cs)
        match runToNum p.1 with
        | .error e => .error e
        | .ok v => (tokenizeF fuel p.2).map (Tok.num v :: ·)
      else .error "invalid character"

def tokenize (s : String) : Except String (List Tok) :=
  tokenizeF (s.length + 1) s.toList

def addSubOp (t : Tok) : Option (PyNum → PyNum → Except String PyNum) :=
  match t with
  | .plus => some (fun a b => .ok (pyAdd a b))
  | .minus => some (fun a b => .ok (pySub a b))
  | _ => none

def mulDivOp (t : Tok) : Option (PyNum → PyNum → Except String PyNum) :=
  match t with
  | .star => some (fun a b => .ok (pyMul a b))
  | .slash => some pyDiv
  | .dslash => some pyFloorDiv
  | _ => none

/-- Left-associative chain `sub (op sub)*` for one precedence level. -/
def chainOps : Nat → (List Tok → Except String (PyNum × List Tok)) →
    (Tok → Option (PyNum → PyNum → Except String PyNum)) →
    PyNum → List Tok → Except String (PyNum × List Tok)
  | 0, _, _, _, _ => .error "parser fuel exhausted"
  | fuel + 1, sub, ops, acc, ts =>
      match ts with
      | [] => .ok (acc, [])
      | t :: rest =>
          match ops t with
          | none => .ok (acc, t :: rest)
          | some f =>
              match sub rest with
              | .error e => .error e
              | .ok (v, ts1) =>
                  match f acc v with
                  | .error e => .error e
                  | .ok acc2 => chainOps fuel sub ops acc2 ts1

/-- Recursive-descent parser/evaluator with Python's precedence:
level 0 = `+ -`, level 1 = `* / //`, level 2 = unary sign,
level 3 = `**` (right-assoc, exponent may be signed), level 4 = atoms. -/
def parseL : Nat → Nat → List Tok → Except String (PyNum × List Tok)
  | 0, _, _ => .error "parser fuel exhausted"
  | fuel + 1, 0, ts =>
      match parseL fuel 1 ts with
      | .error e => .error e
      | .ok (v, ts1) => chainOps fuel (parseL fuel 1) addSubOp v ts1
  | fuel + 1, 1, ts =>
      match parseL fuel 2 ts with
      | .error e => .error e
      | .ok (v, ts1) => chainOps fuel (parseL fuel 2) mulDivOp v ts1
  | fuel + 1, 2, ts =>
      match ts with
      | .plus :: rest => parseL fuel 2 rest
      | .minus :: rest =>
          match parseL fuel 2 rest with
          | .error e => .error e
          | .ok (v, ts1) => .ok (pyNeg v, ts1)
      | _ => parseL fuel 3 ts
  | fuel + 1, 3, ts =>
      match parseL fuel 4 ts with
      | .error e => .error e
      | .ok (v, ts1) =>
          match ts1 with
          | .dstar :: rest =>
              match parseL fuel 2 rest with
              | .error e => .error e
              | .ok (e2, ts2) =>
                  match pyPow v e2 with
                  | .error e => .error e
                  | .ok r => .ok (r, ts2)
          | _ => .ok (v, ts1)
  | fuel + 1, _, ts =>
      match ts with
      | .num v :: rest => .ok (v, rest)
      | .lparen :: rest =>
          match parseL fuel 0 rest with
          | .error e => .error e
          | .ok (v, ts1) =>
              match ts1 with
              | .rparen :: ts2 => .ok (v, ts2)
              | _ => .error "invalid syntax"
      | _ => .error "invalid syntax"

/-- Python `eval` on an allow-listed arithmetic expression. -/
def evalPyExpr (s : String) : Except String PyNum :=
  match tokenize s with
  | .error e => .error e
  | .ok [] => .error "unexpected EOF while parsing"
  | .ok ts =>
      match parseL ((ts.length + 2) * 8) 0 ts with
      | .error e => .error e
      | .ok (v, []) => .ok v
      | .ok (_, _ :: _) => .error "invalid syntax"

def numToVal : PyNum → PyVal
  | .int z => .pint z
  | .float q => .pnum q

/-! ## Tool implementations (src/tools/impl/) and the registry
(src/tools/__init__.py). `handle_tool_call` has no exception handler of its
own: an exception raised inside a tool's `call` method is modelled as
`Except.error` and propagates to the caller. -/

/-- The calculator's character allow-list (calculator_tool.py line 27). -/
def allowedChars : List Char := "0123456789+-*/(). ".toList

/-- CalculatorTool.call: scans the expression for a disallowed character
before evaluating; its own try/except catches every evaluation error, so it
always returns a structured result. A non-string `expression` value raises
a TypeError inside the try and is likewise caught. -/
def calculatorCall (params : List (String × PyVal)) : TRes :=
  match getParam params "expression" (.pstr "") with
  | .pstr expression =>
      match expression.toList.find? (fun c => !(allowedChars.contains c)) with
      | some c => { success := false, error := some ("不允许的字符: " ++ String.singleton c) }
      | none =>
          match evalPyExpr expression with
          | .ok v => { success := true,
                       data := [("expression", .pstr expression), ("result", numToVal v)] }
          | .error e => { success := false, error := some ("计算错误: " ++ e) }
  | v => { success := false,
           error := some ("计算错误: " ++ "\x27" ++ pyTypeName v ++ "\x27 object is not iterable") }

/-- WeatherTool.call: pure mock, always succeeds. -/
def weatherCall (params : List (String × PyVal)) : TRes :=
  { success := true,
    data := [("city", getParam params "city" (.pstr "")),
             ("date", getParam params "date" (.pstr "今天")),
             ("temperature", .pint 25),
             ("weather", .pstr "晴朗"),
             ("humidity", .pint 60),
             ("wind_speed", .pint 15)] }

/-- StockTool.call: calls `.upper()` on the `exchange` argument, so a
non-string exchange raises an AttributeError that nothing in the tool or
the registry catches. -/
def stockCall (params : List (String × PyVal)) : Except String TRes :=
  let symbol := getParam params "symbol" (.pstr "")
  let exchange := getParam params "exchange" (.pstr "sh")
  match exchange with
  | .pstr ex =>
      .ok { success := true,
            data := [("symbol", symbol),
                     ("exchange", .pstr ex),
                     ("full_symbol", .pstr (ex.toUpper ++ pyStr symbol)),
                     ("name", .pstr "示例股票"),
                     ("current_price", .pnum (123.45 : ℚ)),
                     ("open_price", .pnum (120.00 : ℚ)),
                     ("high_price", .pnum (125.00 : ℚ)),
                     ("low_price", .pnum (119.50 : ℚ)),
                     ("volume", .pint 1000000),
                     ("change", .pnum (3.45 : ℚ)),
                     ("change_percent", .pnum (2.85 : ℚ))] }
  | v => .error ("\x27" ++ pyTypeName v ++ "\x27 object has no attribute \x27upper\x27")

inductive RegTool where
  | weather | stock | calculator
deriving Repr, DecidableEq

/-- `tool_registry.get_tool(name)`: the startup registry holds the weather,
stock and calculator tools, registered in that order (create_tool_registry). -/
def registryLookup (name : String) : Option RegTool :=
  if name == "get_weather" then some .weather
  else if name == "get_stock_info" then some .stock
  else if name == "calculate" then some .calculator
  else none

/-- Dispatch to a registered tool's overridden `call` method. -/
def toolCallFn : RegTool → List (String × PyVal) → Except String TRes
  | .weather, params => .ok (weatherCall params)
  | .stock, params => stockCall params
  | .calculator, params => .ok (calculatorCall params)

/-- handle_tool_call (src/tools/__init__.py lines 89-113): structured
not-found failure for an absent name, otherwise calls the tool directly —
with no try/except, so a tool-internal exception propagates. -/
def handleToolCall (name : String) (params : List (String × PyVal)) : Except String TRes :=
  match registryLookup name with
  | none => .ok { success := false, error := some ("工具 " ++ name ++ " 不存在") }
  | some t => toolCallFn t params

def exceptIsOk (e : Except String TRes) : Bool :=
  match e with
  | .ok _ => true
  | .error _ => false

/-! ## Intent classifier (src/agents/intent_agent.py) -/

/-- Python's `str.strip()`: drop whitespace from both ends. -/
def pyStrip (s : String) : String :=
  ⟨((s.toList.dropWhile Char.isWhitespace).reverse.dropWhile Char.isWhitespace).reverse⟩

def TIME_RELATED : String := "时间相关"
def NON_TIME_RELATED : String := "非时间相关"
def UNKNOWN : String := "未知"
def CANNOT_DETERMINE : String := "无法判断"

def intentLabels : List String := [TIME_RELATED, NON_TIME_RELATED, CANNOT_DETERMINE]

/-- IntentAgent.recognize_intent: the completion response is a parameter
(`.error` = upstream failure). The stripped content is matched exactly
against the three allowed labels; anything else yields `UNKNOWN`; a raised
upstream error is caught and yields `UNKNOWN`. -/
def recognizeIntent : Except Unit String → String
  | .error _ => UNKNOWN
  | .ok content =>
      if intentLabels.contains (pyStrip content) then pyStrip content else UNKNOWN

/-- IntentAgent.generate_clarification_question: returns the stripped model
content, or the fixed default question on upstream failure. -/
def generateClarification : Except Unit String → String
  | .error _ => "请问您是想了解与时间相关的信息，还是其他方面的内容呢？"
  | .ok c => pyStrip c

/-- IntentAgent.process_intent: attaches a clarification question exactly
when the recognized intent is CANNOT_DETERMINE or UNKNOWN. -/
def processIntent (ir cr : Except Unit String) : String × Option String :=
  let intent := recognizeIntent ir
  if intent == CANNOT_DETERMINE || intent == UNKNOWN then
    (intent, some (generateClarification cr))
  else (intent, none)

/-- What the router does with one classified turn. -/
inductive TurnRoute where
  | clarify (q : String)
  | timeAgentRoute
  | generalAgentRoute
deriving Repr, DecidableEq

/-- The dispatch decision inside run_agent's loop (src/main.py lines
345-366): `if clarification_question:` is Python truthiness, so an *empty*
clarification string falls through to the intent comparison. -/
def routeTurn (ir cr : Except Unit String) : TurnRoute :=
  let p := processIntent ir cr
  match p.2 with
  | some q =>
      if q ≠ "" then .clarify q
      else if p.1 == TIME_RELATED then .timeAgentRoute else .generalAgentRoute
  | none =>
      if p.1 == TIME_RELATED then .timeAgentRoute else .generalAgentRoute

/-! ## Built-in time tool (src/agents/time_agent.py lines 17-73) -/

/-- The local-time fields `datetime.now(tz)` yields, plus the strings whose
computation lives outside the embedded core (`isoformat()` and `%Z`). -/
structure Now where
  year : Nat
  month : Nat
  day : Nat
  hour : Nat
  minute : Nat
  second : Nat
  weekdayEn : String
  isoText : String
  tzAbbrev : String
deriving Repr, DecidableEq

/-- Values stored in the result dictionary of get_current_time. -/
inductive RVal where
  | s (v : String)
  | i (v : Nat)
  | slist (v : List String)
deriving Repr, DecidableEq

def pad2 (n : Nat) : String :=
  if n < 10 then "0" ++ toString n else toString n

def pad4 (n : Nat) : String :=
  if n < 10 then "000" ++ toString n
  else if n < 100 then "00" ++ toString n
  else if n < 1000 then "0" ++ toString n
  else toString n

/-- strftime("%H:%M:%S"). -/
def fmtTimeStr (t : Now) : String :=
  pad2 t.hour ++ ":" ++ pad2 t.minute ++ ":" ++ pad2 t.second

/-- strftime("%Y-%m-%d %H:%M:%S"). -/
def fmtFormattedTime (t : Now) : String :=
  pad4 t.year ++ "-" ++ pad2 t.month ++ "-" ++ pad2 t.day ++ " " ++ fmtTimeStr t

/-- The English-to-Chinese weekday dictionary (time_agent.py lines 61-63). -/
def weekdaysZh : List (String × String) :=
  [("Monday", "星期一"), ("Tuesday", "星期二"), ("Wednesday", "星期三"),
   ("Thursday", "星期四"), ("Friday", "星期五"), ("Saturday", "星期六"),
   ("Sunday", "星期日")]

/-- strftime("%Y年%m月%d日 ") plus the Chinese weekday name. -/
def fmtDateZh (t : Now) : String :=
  let zh := ((weekdaysZh.find? (fun p => p.1 == t.weekdayEn)).map (fun p => p.2)).getD t.weekdayEn
  pad4 t.year ++ "年" ++ pad2 t.month ++ "月" ++ pad2 t.day ++ "日 " ++ zh

/-- get_current_time: validates the timezone against the `pytz.all_timezones`
parameter `zs`, then builds the result dictionary, appending "time" and/or
"date" according to the format flag. Every arm returns a dictionary — the
function never raises. -/
def getCurrentTime (zs : List String) (clock : String → Now)
    (timezone : String) (format : Option String) : List (String × RVal) :=
  if !(zs.contains timezone) then
    [("error", .s ("无效的时区标识符: " ++ timezone)),
     ("valid_timezones", .slist ["Asia/Shanghai", "America/New_York", "Europe/London",
                                 "Asia/Tokyo", "Australia/Sydney"])]
  else
    let t := clock timezone
    let base : List (String × RVal) :=
      [("timezone", .s timezone), ("datetime", .s t.isoText),
       ("year", .i t.year), ("month", .i t.month), ("day", .i t.day),
       ("hour", .i t.hour), ("minute", .i t.minute), ("second", .i t.second),
       ("weekday", .s t.weekdayEn), ("formatted_time", .s (fmtFormattedTime t)),
       ("timezone_abbreviation", .s t.tzAbbrev)]
    let base :=
      if format == some "time" || format == some "both" then
        base ++ [("time", .s (fmtTimeStr t))]
      else base
    if format == some "date" || format == some "both" then
      base ++ [("date", .s (fmtDateZh t))]
    else base

/-- fallback_get_current_time (time_agent.py lines 494-497). -/
def fallbackGetCurrentTime (zs : List String) (clock : String → Now)
    (format : String) (timezone : String) : List (String × RVal) :=
  getCurrentTime zs clock timezone (some format)

def hasKey (d : List (String × RVal)) (k : String) : Bool :=
  d.any (fun p => p.1 == k)

/-- Look up a key whose value is a string. -/
def lookupStrKey (d : List (String × RVal)) (k : String) : Option String :=
  match (d.find? (fun p => p.1 == k)).map (fun p => p.2) with
  | some (RVal.s v) => some v
  | _ => none

/-! ## Time sub-agent state machine (src/agents/time_agent.py) -/

/-- A message in the time agent's dict-based conversation. `content = none`
models an absent content key; `tool_calls = []` models an absent tool_calls
key (the source only ever stores non-empty lists under that key). -/
structure TToolCall where
  name : String
  args : List (String × String)
deriving Repr, DecidableEq

structure TMsg where
  role : String
  content : Option String := none
  tool_calls : List TToolCall := []
  name : Option String := none
deriving Repr, DecidableEq

/-- The langgraph dict state threaded between nodes. -/
structure TState where
  messages : List TMsg
  requested_locations : List (String × String) := []
  next : String := "decide"
  ai_response : Option String := none
deriving Repr, DecidableEq

def timeKeywords : List String :=
  ["几点", "时间", "现在", "日期", "几号", "星期", "今天", "明天", "昨天",
   "时刻", "几点钟", "时区"]

/-- The static gazetteer (extract_locations_from_question, lines 284-288):
keys and values coincide for every entry. -/
def cityKeywords : List (String × String) :=
  [("北京", "北京"), ("上海", "上海"), ("广州", "广州"), ("深圳", "深圳"),
   ("纽约", "纽约"), ("洛杉矶", "洛杉矶"), ("芝加哥", "芝加哥"),
   ("伦敦", "伦敦"), ("巴黎", "巴黎"), ("东京", "东京"), ("悉尼", "悉尼")]

def extractLocationsFromQuestion (question : String) : List String :=
  cityKeywords.foldl
    (fun acc p => if strContains question p.1 && !(acc.contains p.2) then acc ++ [p.2] else acc)
    []

/-- The static IANA table (map_location_to_timezone, lines 302-315). -/
def timezoneMapping : List (String × String) :=
  [("北京", "Asia/Shanghai"), ("上海", "Asia/Shanghai"), ("广州", "Asia/Shanghai"),
   ("深圳", "Asia/Shanghai"), ("纽约", "America/New_York"),
   ("洛杉矶", "America/Los_Angeles"), ("芝加哥", "America/Chicago"),
   ("伦敦", "Europe/London"), ("巴黎", "Europe/Paris"), ("东京", "Asia/Tokyo"),
   ("悉尼", "Australia/Sydney"), ("默认", "Asia/Shanghai")]

def mapLocationToTimezone (location : String) : String :=
  ((timezoneMapping.find? (fun p => p.1 == location)).map (fun p => p.2)).getD "Asia/Shanghai"

/-- extract_locations (lines 250-272): extraction plus mapping, defaulting
to ("默认", "Asia/Shanghai") when nothing is extracted; its try/except is
unreachable in the total model. -/
def extractLocations (question : String) : List (String × String) :=
  let lts := (extractLocationsFromQuestion question).map (fun l => (l, mapLocationToTimezone l))
  if lts.isEmpty then [("默认", "Asia/Shanghai")] else lts

/-- The first user message's content (the loops at lines 178-183, 377-381). -/
def firstUserContent (ms : List TMsg) : String :=
  match ms.find? (fun m => m.role == "user") with
  | some m => m.content.getD ""
  | none => ""

def lastIsTool (ms : List TMsg) : Bool :=
  match ms.getLast? with
  | some m => m.role == "tool"
  | none => false

def refusalText : String := "抱歉，我是时间助手，只能回答与时间和日期相关的问题。"

def mkToolCallsForLts (lts : List (String × String)) : List TToolCall :=
  lts.map (fun p => { name := "get_current_time",
                      args := [("format", "both"), ("timezone", p.2)] })

/-- decide_next (lines 168-247). The tool-result shortcut, the keyword
gate, location extraction, timezone mapping, the default location, and the
construction of one tool-call request per (location, timezone) pair. The
extraction-mapping-default block at lines 193-206 computes exactly the
pairs of `extractLocations`, so it is expressed through that function. The
except-branch is unreachable in the total model. -/
def decideNext (st : TState) : TState :=
  if lastIsTool st.messages then { st with next := "summarize" }
  else
    let q := firstUserContent st.messages
    if timeKeywords.any (fun kw => strContains q kw) then
      let lts := extractLocations q
      { st with
        messages := st.messages ++ [{ role := "assistant", tool_calls := mkToolCallsForLts lts }],
        requested_locations := lts,
        next := "call_tool" }
    else
      { st with
        messages := st.messages ++ [{ role := "assistant", content := some refusalText }],
        next := "end" }

/-- Serialize a get_current_time result dictionary into the tool message's
content string (abstraction of `json.dumps(result, ensure_ascii=False)`). -/
def renderRVal : RVal → String
  | .s v => "\x22" ++ v ++ "\x22"
  | .i v => toString v
  | .slist v => "[" ++ String.intercalate ", " (v.map (fun x => "\x22" ++ x ++ "\x22")) ++ "]"

def renderTimeResult (d : List (String × RVal)) : String :=
  "\x7b" ++ String.intercalate ", " (d.map (fun p => "\x22" ++ p.1 ++ "\x22: " ++ renderRVal p.2)) ++ "\x7d"

/-- One iteration of call_tool_node's loop: dispatch through the time tool
registry (which holds exactly get_current_time) and build one tool-role
message per call; an unknown name yields the unknown-tool message. -/
def toolMsgFor (zs : List String) (clock : String → Now) (tc : TToolCall) : TMsg :=
  if tc.name == "get_current_time" then
    let tz := (((tc.args.find? (fun p => p.1 == "timezone")).map (fun p => p.2)).getD "Asia/Shanghai")
    let fmt := (tc.args.find? (fun p => p.1 == "format")).map (fun p => p.2)
    { role := "tool", content := some (renderTimeResult (getCurrentTime zs clock tz fmt)),
      name := some tc.name }
  else
    { role := "tool", content := some ("未知工具: " ++ tc.name), name := some tc.name }

/-- call_tool_node (lines 320-369). The defensive branch for a malformed
trailing message mirrors lines 325-329; from the graph it is unreachable,
because decide_next only routes here after appending an assistant message
with a non-empty tool_calls list. -/
def callToolNode (zs : List String) (clock : String → Now) (st : TState) : TState :=
  let guard :=
    match st.messages.getLast? with
    | some lm => lm.role == "assistant" && !lm.tool_calls.isEmpty
    | none => false
  if guard then
    match st.messages.getLast? with
    | some lm =>
        { st with messages := st.messages ++ lm.tool_calls.map (toolMsgFor zs clock),
                  next := "summarize" }
    | none => st
  else
    { st with
      messages := st.messages ++ [{ role := "assistant", content := some "抱歉，无法识别工具调用。" }],
      next := "end" }

/-- One clause of the summary (lines 394-401): built from the re-fetched
time result, with the shape depending on which keys are present. -/
def clauseFor (zs : List String) (clock : String → Now) (p : String × String) : Option String :=
  let r := fallbackGetCurrentTime zs clock "both" p.2
  match lookupStrKey r "time", lookupStrKey r "date" with
  | some t, some d => some (p.1 ++ "当前时间是 " ++ t ++ "，今天是 " ++ d)
  | some t, none => some (p.1 ++ "当前时间是 " ++ t)
  | none, some d => some (p.1 ++ "今天是 " ++ d)
  | none, none => none

/-- The re-extraction fallback's clause (lines 417-419) — appended only when
both the time and the date key are present. -/
def fullClauseFor (zs : List String) (clock : String → Now) (p : String × String) : Option String :=
  let r := fallbackGetCurrentTime zs clock "both" p.2
  match lookupStrKey r "time", lookupStrKey r "date" with
  | some t, some d => some (p.1 ++ "当前时间是 " ++ t ++ "，今天是 " ++ d)
  | _, _ => none

/-- The count-dependent separator (lines 404-410): one clause ends with a
period, two are joined by a semicolon, three or more become a bulleted list. -/
def joinSummaries (ss : List String) : String :=
  match ss with
  | [s] => s ++ "。"
  | [a, b] => a ++ "；" ++ b ++ "。"
  | _ => String.intercalate "<br>• " ("" :: ss) ++ "。"

/-- The final default branch of summarize_node (lines 422-434). -/
def defaultSummary (zs : List String) (clock : String → Now) : String :=
  let r := fallbackGetCurrentTime zs clock "both" "Asia/Shanghai"
  match lookupStrKey r "time", lookupStrKey r "date" with
  | some t, some d => "当前时间是 " ++ t ++ "，今天是 " ++ d ++ "。"
  | some t, none => "当前时间是 " ++ t ++ "。"
  | none, some d => "今天是 " ++ d ++ "。"
  | none, none => "当前时间信息：" ++ renderTimeResult r

/-- summarize_node (lines 372-455): compose the summary from the requested
locations (re-fetching each time), or re-extract from the question when no
locations were recorded; always append exactly one assistant message. Its
except-branch is unreachable in the total model. -/
def summarizeNode (zs : List String) (clock : String → Now) (st : TState) : TState :=
  let q := firstUserContent st.messages
  let rls := st.requested_locations
  let summary :=
    if !rls.isEmpty then joinSummaries (rls.filterMap (clauseFor zs clock))
    else
      let locations := extractLocations q
      if !locations.isEmpty then
        String.intercalate "；" (locations.filterMap (fullClauseFor zs clock)) ++ "。"
      else defaultSummary zs clock
  { st with
    messages := st.messages ++ [{ role := "assistant", content := some summary }],
    ai_response := some summary,
    next := "end" }

/-- One terminal run of the compiled graph (create_time_agent, lines
458-491): entry at decide; conditional edges decide→{call_tool, summarize,
END}; the unconditional edge call_tool→summarize; summarize→END. -/
def runTimeAgent (zs : List String) (clock : String → Now) (st : TState) : TState :=
  let s1 := decideNext st
  if s1.next == "call_tool" then summarizeNode zs clock (callToolNode zs clock s1)
  else if s1.next == "summarize" then summarizeNode zs clock s1
  else s1

def isAnswerMsg (m : TMsg) : Bool :=
  m.role == "assistant" && m.content.isSome

/-! ## General tool-using agent (src/main.py) -/

deriving instance DecidableEq for Except

/-- A tool call carried on an assistant message: the name plus the JSON
argument text, modelled as its parse result (`.error` = malformed JSON, the
json.JSONDecodeError case of execute_tool). -/
structure GToolCall where
  name : String
  arguments : Except Unit (List (String × PyVal))
deriving Repr, DecidableEq

structure GMsg where
  role : String
  content : Option String := none
  tool_calls : List GToolCall := []
  name : Option String := none
deriving Repr, DecidableEq

/-- The AgentState threaded through the graph (plus the ai_response field
the node dictionaries carry back to the caller). -/
structure GState where
  messages : List GMsg
  user_input : Option String := none
  next : String := "direct_answer"
  ai_response : Option String := none
deriving Repr, DecidableEq

/-- The model's decision response: text content and/or tool calls.
`content = none` models a null content field, folded into the
`getattr(message, 'content', default)` fallback of line 197. -/
structure MsgOut where
  content : Option String := none
  tool_calls : List GToolCall := []
deriving Repr, DecidableEq

/-- Append the user's input as a user message without any duplicate check —
the error branch of should_use_tool (lines 151-154). `if state.user_input:`
is Python truthiness, so the empty string is skipped. -/
def appendUserRaw (ms : List GMsg) (ui : Option String) : List GMsg :=
  match ui with
  | some u => if u ≠ "" then ms ++ [{ role := "user", content := some u }] else ms
  | none => ms

/-- Append the user's input unless an identical user message already exists
(lines 163-173). -/
def appendUserIfAbsent (ms : List GMsg) (ui : Option String) : List GMsg :=
  match ui with
  | some u =>
      if u ≠ "" then
        if ms.any (fun m => m.role == "user" && m.content == some u) then ms
        else ms ++ [{ role := "user", content := some u }]
      else ms
  | none => ms

def upstreamErrText (e : String) : String := "抱歉，处理你的请求时出错: " ++ e

/-- should_use_tool (lines 100-200), with the completion response as a
parameter. On an upstream failure: append the user message (no duplicate
check) and an assistant error reply, and route to direct_answer. On
success: deduplicate-append the user message, then either carry the tool
calls on an assistant message and route to tool, or append the text reply
and route to direct_answer. -/
def shouldUseTool (resp : Except String MsgOut) (st : GState) : GState :=
  match resp with
  | .error e =>
      let c := upstreamErrText e
      { st with
        messages := appendUserRaw st.messages st.user_input ++ [{ role := "assistant", content := some c }],
        next := "direct_answer",
        ai_response := some c }
  | .ok m =>
      let ms := appendUserIfAbsent st.messages st.user_input
      if m.tool_calls.isEmpty then
        let c := m.content.getD "抱歉，我无法提供回答。"
        { st with
          messages := ms ++ [{ role := "assistant", content := some c }],
          next := "direct_answer",
          ai_response := some c }
      else
        { st with
          messages := ms ++ [{ role := "assistant", tool_calls := m.tool_calls }],
          next := "tool" }

/-- Serialize a ToolResult into the tool message's content (abstraction of
`json.dumps(result)`). -/
def renderToolRes (r : TRes) : String :=
  "\x7b\x22success\x22: " ++ (if r.success then "true" else "false") ++
    (match r.error with
     | some e => ", \x22error\x22: \x22" ++ e ++ "\x22"
     | none => "") ++
    (if r.data.isEmpty then "" else
      ", \x22data\x22: \x7b" ++
        String.intercalate ", " (r.data.map (fun p => "\x22" ++ p.1 ++ "\x22: " ++ pyStr p.2)) ++
      "\x7d") ++
  "\x7d"

/-- The body of execute_tool's per-call try block (lines 61-94) applied to
the first tool call: parse the argument text (malformed JSON degrades to an
empty dict), invoke the registry, and build the single tool-role message;
an exception escaping handle_tool_call is caught here and becomes the
unknown_tool error message. -/
def execArgs (c : GToolCall) : List (String × PyVal) :=
  match c.arguments with
  | .ok l => l
  | .error _ => []

def execToolMsg (c : GToolCall) : GMsg :=
  match handleToolCall c.name (execArgs c) with
  | .ok result =>
      { role := "tool", name := some c.name, content := some (renderToolRes result) }
  | .error e =>
      { role := "tool", name := some "unknown_tool",
        content := some (renderToolRes { success := false, error := some e }) }

/-- execute_tool (lines 49-97): honors only `tool_calls[0]` and appends
exactly one tool-role message; when the trailing message carries no tool
calls it returns the messages unchanged. (With an empty message list the
source's `updated_messages[-1]` would raise; that state is unreachable from
the graph, which only routes here after should_use_tool appended the
assistant tool-call message.) -/
def executeTool (st : GState) : GState :=
  match st.messages.getLast? with
  | some lm =>
      match lm.tool_calls with
      | c :: _ => { st with messages := st.messages ++ [execToolMsg c] }
      | [] => st
  | none => st

def noAnswerText : String := "抱歉，我无法提供回答。"

/-- generate_answer (lines 203-237), with the summarization response as a
parameter. If the trailing message is tool-role, a further completion call
is made — and that call is NOT wrapped in try/except, so its upstream
failure propagates out of the node (modelled as `Except.error`). Otherwise
the node only reports the trailing assistant content (or the default). -/
def generateAnswer (sumResp : Except String String) (st : GState) : Except String GState :=
  match st.messages.getLast? with
  | some lm =>
      if lm.role == "tool" then
        match sumResp with
        | .error e => .error e
        | .ok s =>
            .ok { st with
                  messages := st.messages ++ [{ role := "assistant", content := some s }],
                  ai_response := some s }
      else if lm.role == "assistant" then
        .ok { st with ai_response := some (lm.content.getD noAnswerText) }
      else .ok { st with ai_response := some noAnswerText }
  | none => .ok { st with ai_response := some noAnswerText }

/-- One run of the compiled graph (create_agent_graph, lines 242-277), also
reporting the list of graph nodes visited: entry at decision; the
conditional edge routes next = "tool" to the tool node and anything else to
the answer node; the tool node always continues to the answer node. -/
def runGeneralAgent (decResp : Except String MsgOut) (sumResp : Except String String)
    (st : GState) : Except String (GState × List String) :=
  let s1 := shouldUseTool decResp st
  if s1.next == "tool" then
    match generateAnswer sumResp (executeTool s1) with
    | .error e => .error e
    | .ok s2 => .ok (s2, ["decision", "tool", "answer"])
  else
    match generateAnswer sumResp s1 with
    | .error e => .error e
    | .ok s2 => .ok (s2, ["decision", "answer"])

/-! ## Helper lemmas -/

theorem summarize_append (zs : List String) (clock : String → Now) (st : TState) :
    ∃ s : String,
      (summarizeNode zs clock st).messages =
        st.messages ++ [{ role := "assistant", content := some s }] ∧
      (summarizeNode zs clock st).ai_response = some s :=
  ⟨_, rfl, rfl⟩

theorem toolMsgFor_role (zs : List String) (clock : String → Now) (tc : TToolCall) :
    (toolMsgFor zs clock tc).role = "tool" := by
  unfold toolMsgFor
  by_cases h : (tc.name == "get_current_time") = true
  · rw [if_pos h]
  · rw [if_neg h]

theorem toolMsgs_filter_nil (zs : List String) (clock : String → Now) (tcs : List TToolCall) :
    (tcs.map (toolMsgFor zs clock)).filter isAnswerMsg = [] := by
  rw [List.filter_eq_nil_iff]
  intro a ha
  obtain ⟨tc, _, rfl⟩ := List.mem_map.mp ha
  simp [isAnswerMsg, toolMsgFor_role]

theorem extractLocations_ne_nil (q : String) : extractLocations q ≠ [] := by
  unfold extractLocations
  by_cases h : ((extractLocationsFromQuestion q).map
      (fun l => (l, mapLocationToTimezone l))).isEmpty = true
  · rw [if_pos h]; simp
  · rw [if_neg h]
    intro hc
    rw [hc] at h
    exact h rfl

theorem mkToolCallsForLts_isEmpty_false (lts : List (String × String)) (h : lts ≠ []) :
    (mkToolCallsForLts lts).isEmpty = false := by
  unfold mkToolCallsForLts
  cases lts with
  | nil => exact absurd rfl h
  | cons a l => rfl

theorem foldl_extract_subset (q : String) :
    ∀ (l : List (String × String)) (acc : List String) (x : String),
      x ∈ l.foldl (fun acc p =>
        if strContains q p.1 && !(acc.contains p.2) then acc ++ [p.2] else acc) acc →
      x ∈ acc ∨ x ∈ l.map Prod.snd := by
  intro l
  induction l with
  | nil => intro acc x hx; exact Or.inl hx
  | cons p l ih =>
      intro acc x hx
      rw [List.foldl_cons] at hx
      rcases ih _ x hx with h1 | h2
      · by_cases hc : (strContains q p.1 && !(acc.contains p.2)) = true
        · rw [if_pos hc] at h1
          rcases List.mem_append.mp h1 with h3 | h3
          · exact Or.inl h3
          · right
            rw [List.map_cons]
            have : x = p.2 := by simpa using h3
            rw [this]
            exact List.mem_cons_self _ _
        · rw [if_neg hc] at h1
          exact Or.inl h1
      · right
        rw [List.map_cons]
        exact List.mem_cons_of_mem _ h2

theorem getCurrentTime_both_keys (zs : List String) (clock : String → Now) (tz : String)
    (h : zs.contains tz = true) :
    lookupStrKey (getCurrentTime zs clock tz (some "both")) "time" = some (fmtTimeStr (clock tz)) ∧
    lookupStrKey (getCurrentTime zs clock tz (some "both")) "date" = some (fmtDateZh (clock tz)) := by
  unfold getCurrentTime
  rw [h]
  exact ⟨rfl, rfl⟩

theorem clauseFor_valid (zs : List String) (clock : String → Now) (p : String × String)
    (h : zs.contains p.2 = true) :
    clauseFor zs clock p =
      some (p.1 ++ "当前时间是 " ++ fmtTimeStr (clock p.2) ++ "，今天是 " ++ fmtDateZh (clock p.2)) := by
  simp only [clauseFor, fallbackGetCurrentTime]
  rw [(getCurrentTime_both_keys zs clock p.2 h).1, (getCurrentTime_both_keys zs clock p.2 h).2]

theorem extract_beijing_tokyo (q : String)
    (hbj : strContains q "北京" = true)
    (htk : strContains q "东京" = true)
    (hothers : ∀ p ∈ cityKeywords, p.1 ≠ "北京" → p.1 ≠ "东京" → strContains q p.1 = false) :
    extractLocationsFromQuestion q = ["北京", "东京"] := by
  have h2 : strContains q "上海" = false := hothers ("上海", "上海") (by decide) (by decide) (by decide)
  have h3 : strContains q "广州" = false := hothers ("广州", "广州") (by decide) (by decide) (by decide)
  have h4 : strContains q "深圳" = false := hothers ("深圳", "深圳") (by decide) (by decide) (by decide)
  have h5 : strContains q "纽约" = false := hothers ("纽约", "纽约") (by decide) (by decide) (by decide)
  have h6 : strContains q "洛杉矶" = false := hothers ("洛杉矶", "洛杉矶") (by decide) (by decide) (by decide)
  have h7 : strContains q "芝加哥" = false := hothers ("芝加哥", "芝加哥") (by decide) (by decide) (by decide)
  have h8 : strContains q "伦敦" = false := hothers ("伦敦", "伦敦") (by decide) (by decide) (by decide)
  have h9 : strContains q "巴黎" = false := hothers ("巴黎", "巴黎") (by decide) (by decide) (by decide)
  have h11 : strContains q "悉尼" = false := hothers ("悉尼", "悉尼") (by decide) (by decide) (by decide)
  unfold extractLocationsFromQuestion cityKeywords
  simp only [List.foldl_cons, List.foldl_nil, hbj, htk, h2, h3, h4, h5, h6, h7, h8, h9, h11]
  rfl

/-- A fixed local-time sample used by the concrete witnesses. -/
def sampleNow : Now :=
  { year := 2026, month := 10, day := 12, hour := 9, minute := 5, second := 3,
    weekdayEn := "Monday", isoText := "2026-10-12T09:05:03+08:00", tzAbbrev := "CST" }

/-! ## Claim theorems -/

/-- C1 counterexample: the claim as stated is false. When the intent
classification yields CANNOT_DETERMINE and the clarification model returns
whitespace-only content, `process` returns a present — but empty —
clarification string, yet the router's `if clarification_question:` check
is falsy, so the router does not emit the question and dispatches to the
General Agent after all. -/
theorem c1_clarification_counterexample :
    processIntent (.ok "无法判断") (.ok "   ") = (CANNOT_DETERMINE, some "") ∧
    routeTurn (.ok "无法判断") (.ok "   ") = .generalAgentRoute := ⟨by decide, by decide⟩

/-- C1 amended: the clarification is present iff the result is
CANNOT_DETERMINE or UNKNOWN; whenever the clarification string is
non-empty the router emits it and invokes neither sub-agent; when it is
the empty string the router falls through to the General Agent. -/
theorem c1_clarification_amended (ir cr : Except Unit String) :
    ((processIntent ir cr).2.isSome = true ↔
      ((processIntent ir cr).1 = CANNOT_DETERMINE ∨ (processIntent ir cr).1 = UNKNOWN)) ∧
    (∀ q, (processIntent ir cr).2 = some q → q ≠ "" → routeTurn ir cr = .clarify q) ∧
    (∀ q, (processIntent ir cr).2 = some q → q = "" → routeTurn ir cr = .generalAgentRoute) := by
  by_cases h : (recognizeIntent ir == CANNOT_DETERMINE || recognizeIntent ir == UNKNOWN) = true
  · have hp : processIntent ir cr = (recognizeIntent ir, some (generateClarification cr)) := by
      unfold processIntent; rw [if_pos h]
    have hcases : recognizeIntent ir = CANNOT_DETERMINE ∨ recognizeIntent ir = UNKNOWN := by
      rcases (Bool.or_eq_true _ _).mp h with h1 | h2
      · exact Or.inl (by simpa using h1)
      · exact Or.inr (by simpa using h2)
    have hni : (recognizeIntent ir == TIME_RELATED) = false := by
      rcases hcases with h1 | h1 <;> rw [h1] <;> decide
    refine ⟨?_, ?_, ?_⟩
    · rw [hp]; simpa using hcases
    · intro q hq hne
      rw [hp] at hq
      have hq2 : generateClarification cr = q := by injection hq
      unfold routeTurn
      rw [hp]
      simp only [hq2, if_pos hne]
    · intro q hq he
      rw [hp] at hq
      have hq2 : generateClarification cr = q := by injection hq
      unfold routeTurn
      rw [hp]
      simp only [hq2, he]
      rw [if_neg (by simp)]
      simp only [hni, Bool.false_eq_true, if_false]
  · have hp : processIntent ir cr = (recognizeIntent ir, none) := by
      unfold processIntent; rw [if_neg h]
    have hcases : recognizeIntent ir ≠ CANNOT_DETERMINE ∧ recognizeIntent ir ≠ UNKNOWN := by
      constructor <;> intro hc <;> apply h <;> rw [hc] <;> decide
    refine ⟨?_, ?_, ?_⟩
    · rw [hp]
      simp only [Option.isSome_none]
      constructor
      · intro hfalse; cases hfalse
      · rintro (h1 | h1)
        · exact absurd h1 hcases.1
        · exact absurd h1 hcases.2
    · intro q hq; rw [hp] at hq; cases hq
    · intro q hq; rw [hp] at hq; cases hq

/-- C1 witness: a CANNOT_DETERMINE turn with a non-empty clarification is
routed to the clarification branch. -/
theorem c1_clarification_witness :
    routeTurn (.ok "无法判断") (.ok "您是想问时间吗？") = .clarify "您是想问时间吗？" :=
  (c1_clarification_amended (.ok "无法判断") (.ok "您是想问时间吗？")).2.1
    "您是想问时间吗？" (by decide) (by decide)

/-- C2: every terminal run of the Time Sub-Agent's state machine appends a
non-empty suffix to the conversation whose last message is an assistant
message with content (the answer, the refusal, or an error text), and that
message is the only content-bearing assistant message appended — on every
path: the tool-result shortcut, the call_tool path, and the refusal path. -/
theorem c2_time_agent_trailing_assistant (zs : List String) (clock : String → Now) (st : TState) :
    ∃ suffix : List TMsg,
      (runTimeAgent zs clock st).messages = st.messages ++ suffix ∧
      suffix ≠ [] ∧
      ∃ s : String,
        suffix.getLast? = some { role := "assistant", content := some s } ∧
        (suffix.filter isAnswerMsg).length = 1 := by
  by_cases h1 : lastIsTool st.messages = true
  · have hd : decideNext st = { st with next := "summarize" } := by
      unfold decideNext; rw [if_pos h1]
    have hrun : runTimeAgent zs clock st = summarizeNode zs clock { st with next := "summarize" } := by
      unfold runTimeAgent; rw [hd]; rfl
    obtain ⟨s, hs, _⟩ := summarize_append zs clock { st with next := "summarize" }
    refine ⟨[{ role := "assistant", content := some s }], ?_, by simp, s, rfl, rfl⟩
    rw [hrun, hs]
  · have h1f : lastIsTool st.messages = false := by simpa using h1
    by_cases h2 : timeKeywords.any (fun kw => strContains (firstUserContent st.messages) kw) = true
    · have hd : decideNext st =
          { st with
            messages := st.messages ++
              [{ role := "assistant",
                 tool_calls := mkToolCallsForLts (extractLocations (firstUserContent st.messages)) }],
            requested_locations := extractLocations (firstUserContent st.messages),
            next := "call_tool" } := by
        unfold decideNext
        rw [if_neg (by simp [h1f]), if_pos h2]
      have hrun : runTimeAgent zs clock st =
          summarizeNode zs clock (callToolNode zs clock (decideNext st)) := by
        unfold runTimeAgent
        conv_lhs => rw [hd]
        rw [hd]
        rfl
      have hcall : callToolNode zs clock (decideNext st) =
          { st with
            messages := (st.messages ++
              [{ role := "assistant",
                 tool_calls := mkToolCallsForLts (extractLocations (firstUserContent st.messages)) }]) ++
              (mkToolCallsForLts (extractLocations (firstUserContent st.messages))).map (toolMsgFor zs clock),
            requested_locations := extractLocations (firstUserContent st.messages),
            next := "summarize" } := by
        rw [hd]
        unfold callToolNode
        simp only [List.getLast?_concat,
          mkToolCallsForLts_isEmpty_false _ (extractLocations_ne_nil (firstUserContent st.messages))]
        rfl
      obtain ⟨s, hs, _⟩ := summarize_append zs clock (callToolNode zs clock (decideNext st))
      refine ⟨([{ role := "assistant",
                  tool_calls := mkToolCallsForLts (extractLocations (firstUserContent st.messages)) }] ++
               (mkToolCallsForLts (extractLocations (firstUserContent st.messages))).map (toolMsgFor zs clock)) ++
              [{ role := "assistant", content := some s }], ?_, by simp, s, ?_, ?_⟩
      · rw [hrun, hs, hcall]
        simp [List.append_assoc]
      · rw [List.getLast?_concat]
      · rw [List.filter_append, List.filter_append]
        have hf1 : List.filter isAnswerMsg
            [({ role := "assistant",
                tool_calls := mkToolCallsForLts (extractLocations (firstUserContent st.messages)) } : TMsg)] = [] := rfl
        rw [hf1, toolMsgs_filter_nil]
        rfl
    · have hd : decideNext st =
          { st with
            messages := st.messages ++ [{ role := "assistant", content := some refusalText }],
            next := "end" } := by
        unfold decideNext
        rw [if_neg (by simp [h1f]), if_neg h2]
      have hrun : runTimeAgent zs clock st = decideNext st := by
        unfold runTimeAgent
        conv_lhs => rw [hd]
        rw [hd]
        rfl
      refine ⟨[{ role := "assistant", content := some refusalText }], ?_, by simp,
        refusalText, rfl, rfl⟩
      rw [hrun, hd]

/-- C2 witness: a concrete refusal-path run appends exactly the trailing
assistant message. -/
theorem c2_time_agent_witness :
    ∃ suffix : List TMsg,
      (runTimeAgent ["Asia/Shanghai"] (fun _ => sampleNow)
        { messages := [{ role := "user", content := some "你好" }] }).messages =
        [{ role := "user", content := some "你好" }] ++ suffix ∧
      suffix ≠ [] ∧
      ∃ s : String,
        suffix.getLast? = some { role := "assistant", content := some s } ∧
        (suffix.filter isAnswerMsg).length = 1 :=
  c2_time_agent_trailing_assistant ["Asia/Shanghai"] (fun _ => sampleNow)
    { messages := [{ role := "user", content := some "你好" }] }

/-- C3 counterexample: the claim as stated is false. A question containing
both "北京" and "东京" but no time keyword takes decide_next's refusal
branch: the sub-agent issues zero tool calls (not two) and appends the
refusal instead of a two-clause summary. -/
theorem c3_beijing_tokyo_counterexample :
    strContains "北京和东京在哪里" "北京" = true ∧
    strContains "北京和东京在哪里" "东京" = true ∧
    (runTimeAgent ["Asia/Shanghai", "Asia/Tokyo"] (fun _ => sampleNow)
      { messages := [{ role := "user", content := some "北京和东京在哪里" }] }).messages =
      [{ role := "user", content := some "北京和东京在哪里" },
       { role := "assistant", content := some refusalText }] :=
  ⟨by decide, by decide, by decide⟩

/-- C3 amended: for every question that contains a time keyword, contains
both "北京" and "东京", and contains no other gazetteer city, the sub-agent
issues exactly two get_current_time tool calls parameterized with
Asia/Shanghai and Asia/Tokyo, and the final assistant summary is the two
clauses joined by a semicolon; and the separator rule is count-dependent —
one clause ends with a period, two clauses are joined with a semicolon,
three or more are rendered as a bulleted list. -/
theorem c3_beijing_tokyo_amended (zs : List String) (clock : String → Now) (q : String)
    (htime : timeKeywords.any (fun kw => strContains q kw) = true)
    (hbj : strContains q "北京" = true)
    (htk : strContains q "东京" = true)
    (hothers : ∀ p ∈ cityKeywords, p.1 ≠ "北京" → p.1 ≠ "东京" → strContains q p.1 = false)
    (hzs1 : zs.contains "Asia/Shanghai" = true)
    (hzs2 : zs.contains "Asia/Tokyo" = true) :
    (runTimeAgent zs clock { messages := [{ role := "user", content := some q }] }).messages =
      [{ role := "user", content := some q },
       { role := "assistant",
         tool_calls := [{ name := "get_current_time", args := [("format", "both"), ("timezone", "Asia/Shanghai")] },
                        { name := "get_current_time", args := [("format", "both"), ("timezone", "Asia/Tokyo")] }] },
       toolMsgFor zs clock { name := "get_current_time", args := [("format", "both"), ("timezone", "Asia/Shanghai")] },
       toolMsgFor zs clock { name := "get_current_time", args := [("format", "both"), ("timezone", "Asia/Tokyo")] },
       { role := "assistant",
         content := some ("北京当前时间是 " ++ fmtTimeStr (clock "Asia/Shanghai") ++ "，今天是 " ++
           fmtDateZh (clock "Asia/Shanghai") ++ "；" ++
           ("东京当前时间是 " ++ fmtTimeStr (clock "Asia/Tokyo") ++ "，今天是 " ++
           fmtDateZh (clock "Asia/Tokyo")) ++ "。") }] ∧
    (∀ s : String, joinSummaries [s] = s ++ "。") ∧
    (∀ a b : String, joinSummaries [a, b] = a ++ "；" ++ b ++ "。") ∧
    (∀ a b c : String, ∀ ss : List String,
      joinSummaries (a :: b :: c :: ss) = String.intercalate "<br>• " ("" :: a :: b :: c :: ss) ++ "。") := by
  refine ⟨?_, fun s => rfl, fun a b => rfl, fun a b c ss => rfl⟩
  have hex : extractLocationsFromQuestion q = ["北京", "东京"] := extract_beijing_tokyo q hbj htk hothers
  have hlts : extractLocations q = [("北京", "Asia/Shanghai"), ("东京", "Asia/Tokyo")] := by
    unfold extractLocations
    rw [hex]
    rfl
  have hfu : firstUserContent [{ role := "user", content := some q }] = q := rfl
  have hlit : lastIsTool [({ role := "user", content := some q } : TMsg)] = false := rfl
  have hd : decideNext { messages := [{ role := "user", content := some q }] } =
      { messages := [{ role := "user", content := some q },
                     { role := "assistant",
                       tool_calls := [{ name := "get_current_time", args := [("format", "both"), ("timezone", "Asia/Shanghai")] },
                                      { name := "get_current_time", args := [("format", "both"), ("timezone", "Asia/Tokyo")] }] }],
        requested_locations := [("北京", "Asia/Shanghai"), ("东京", "Asia/Tokyo")],
        next := "call_tool" } := by
    unfold decideNext
    rw [if_neg (by simp [hlit]), if_pos (by rw [hfu]; exact htime)]
    rw [hfu, hlts]
    rfl
  have hrun : runTimeAgent zs clock { messages := [{ role := "user", content := some q }] } =
      summarizeNode zs clock (callToolNode zs clock
        (decideNext { messages := [{ role := "user", content := some q }] })) := by
    unfold runTimeAgent
    conv_lhs => rw [hd]
    rw [hd]
    rfl
  have hcall : callToolNode zs clock
      (decideNext { messages := [{ role := "user", content := some q }] }) =
      { messages := [{ role := "user", content := some q },
                     { role := "assistant",
                       tool_calls := [{ name := "get_current_time", args := [("format", "both"), ("timezone", "Asia/Shanghai")] },
                                      { name := "get_current_time", args := [("format", "both"), ("timezone", "Asia/Tokyo")] }] },
                     toolMsgFor zs clock { name := "get_current_time", args := [("format", "both"), ("timezone", "Asia/Shanghai")] },
                     toolMsgFor zs clock { name := "get_current_time", args := [("format", "both"), ("timezone", "Asia/Tokyo")] }],
        requested_locations := [("北京", "Asia/Shanghai"), ("东京", "Asia/Tokyo")],
        next := "summarize" } := by
    rw [hd]
    rfl
  rw [hrun, hcall]
  have hc1 := clauseFor_valid zs clock ("北京", "Asia/Shanghai") hzs1
  have hc2 := clauseFor_valid zs clock ("东京", "Asia/Tokyo") hzs2
  unfold summarizeNode
  simp only [List.filterMap_cons, hc1, hc2, List.filterMap_nil]
  rfl

set_option maxRecDepth 4096 in
/-- C3 witness: the amended claim evaluated at a concrete two-city
time question with a fixed clock. -/
theorem c3_beijing_tokyo_witness :
    (runTimeAgent ["Asia/Shanghai", "Asia/Tokyo"] (fun _ => sampleNow)
      { messages := [{ role := "user", content := some "北京和东京现在几点？" }] }).messages =
      [{ role := "user", content := some "北京和东京现在几点？" },
       { role := "assistant",
         tool_calls := [{ name := "get_current_time", args := [("format", "both"), ("timezone", "Asia/Shanghai")] },
                        { name := "get_current_time", args := [("format", "both"), ("timezone", "Asia/Tokyo")] }] },
       toolMsgFor ["Asia/Shanghai", "Asia/Tokyo"] (fun _ => sampleNow)
         { name := "get_current_time", args := [("format", "both"), ("timezone", "Asia/Shanghai")] },
       toolMsgFor ["Asia/Shanghai", "Asia/Tokyo"] (fun _ => sampleNow)
         { name := "get_current_time", args := [("format", "both"), ("timezone", "Asia/Tokyo")] },
       { role := "assistant",
         content := some "北京当前时间是 09:05:03，今天是 2026年10月12日 星期一；东京当前时间是 09:05:03，今天是 2026年10月12日 星期一。" }] := by
  have h := (c3_beijing_tokyo_amended ["Asia/Shanghai", "Asia/Tokyo"] (fun _ => sampleNow)
    "北京和东京现在几点？"
    (by decide) (by decide) (by decide) (by decide) (by decide) (by decide)).1
  exact h.trans (by decide)

/-- C4: for every question that contains a time keyword and from which no
location is extracted, decide_next issues exactly one tool-call request
parameterized with the configured default timezone Asia/Shanghai (under the
"默认" placeholder location); moreover every location the gazetteer can
extract has an entry in the static timezone table, so the claim's
"unresolvable extracted location" case cannot occur. -/
theorem c4_default_timezone (q : String)
    (ht : timeKeywords.any (fun kw => strContains q kw) = true)
    (hloc : extractLocationsFromQuestion q = []) :
    decideNext { messages := [{ role := "user", content := some q }] } =
      { messages := [{ role := "user", content := some q },
                     { role := "assistant",
                       tool_calls := [{ name := "get_current_time",
                                        args := [("format", "both"), ("timezone", "Asia/Shanghai")] }] }],
        requested_locations := [("默认", "Asia/Shanghai")],
        next := "call_tool" } ∧
    (∀ q2 loc, loc ∈ extractLocationsFromQuestion q2 →
      (timezoneMapping.find? (fun p => p.1 == loc)).isSome = true) := by
  constructor
  · have hfu : firstUserContent [{ role := "user", content := some q }] = q := rfl
    have hlit : lastIsTool [({ role := "user", content := some q } : TMsg)] = false := rfl
    have hex : extractLocations q = [("默认", "Asia/Shanghai")] := by
      unfold extractLocations
      rw [hloc]
      rfl
    unfold decideNext
    rw [hlit]
    simp only [Bool.false_eq_true, if_false, hfu, ht, if_true, hex]
    rfl
  · intro q2 loc hmem
    have h2 := foldl_extract_subset q2 cityKeywords [] loc (by
      unfold extractLocationsFromQuestion at hmem
      exact hmem)
    rcases h2 with h3 | h3
    · cases h3
    · have : loc ∈ ["北京", "上海", "广州", "深圳", "纽约", "洛杉矶", "芝加哥", "伦敦", "巴黎", "东京", "悉尼"] := by
        simpa [cityKeywords] using h3
      fin_cases this <;> decide

/-- C4 witness: a time question naming no city yields the single default
Asia/Shanghai tool-call request. -/
theorem c4_default_timezone_witness :
    decideNext { messages := [{ role := "user", content := some "现在几点" }] } =
      { messages := [{ role := "user", content := some "现在几点" },
                     { role := "assistant",
                       tool_calls := [{ name := "get_current_time",
                                        args := [("format", "both"), ("timezone", "Asia/Shanghai")] }] }],
        requested_locations := [("默认", "Asia/Shanghai")],
        next := "call_tool" } :=
  (c4_default_timezone "现在几点" (by decide) (by decide)).1

/-- C5 counterexample: the claim as stated is false. It names the allowed
labels as the English strings time-related / non-time-related /
cannot-determine, under which the content "时间相关" would be "other
content" yielding UNKNOWN — but the code matches against the Chinese label
strings, so recognize_intent returns TIME_RELATED (≠ UNKNOWN) there. -/
theorem c5_intent_labels_counterexample :
    ["time-related", "non-time-related", "cannot-determine"].contains (pyStrip "时间相关") = false ∧
    recognizeIntent (.ok "时间相关") = TIME_RELATED ∧
    TIME_RELATED ≠ UNKNOWN := ⟨by decide, by decide, by decide⟩

/-- C5 amended: classify always returns one of the four IntentResult
values and never raises; the stripped model content is matched exactly
against the three allowed Chinese label strings 时间相关 / 非时间相关 /
无法判断 (glossed time-related / non-time-related / cannot-determine), and
any other content — or an upstream call failure — yields UNKNOWN. -/
theorem c5_intent_labels_amended (resp : Except Unit String) :
    (recognizeIntent resp = TIME_RELATED ∨ recognizeIntent resp = NON_TIME_RELATED ∨
     recognizeIntent resp = CANNOT_DETERMINE ∨ recognizeIntent resp = UNKNOWN) ∧
    (∀ c, resp = .ok c → intentLabels.contains (pyStrip c) = true →
      recognizeIntent resp = pyStrip c) ∧
    (∀ c, resp = .ok c → intentLabels.contains (pyStrip c) = false →
      recognizeIntent resp = UNKNOWN) ∧
    (∀ u, resp = .error u → recognizeIntent resp = UNKNOWN) := by
  cases resp with
  | error u =>
      refine ⟨Or.inr (Or.inr (Or.inr rfl)), ?_, ?_, ?_⟩
      · intro c hc; cases hc
      · intro c hc; cases hc
      · intro _ _; rfl
  | ok c =>
      by_cases h : intentLabels.contains (pyStrip c) = true
      · have hr : recognizeIntent (.ok c) = pyStrip c := by
          simp only [recognizeIntent, h, if_true]
        have hmem : pyStrip c ∈ intentLabels := by simpa using h
        have hd : pyStrip c = TIME_RELATED ∨ pyStrip c = NON_TIME_RELATED ∨
            pyStrip c = CANNOT_DETERMINE := by
          simpa [intentLabels] using hmem
        refine ⟨?_, ?_, ?_, ?_⟩
        · rcases hd with h1 | h2 | h3
          · exact Or.inl (hr.trans h1)
          · exact Or.inr (Or.inl (hr.trans h2))
          · exact Or.inr (Or.inr (Or.inl (hr.trans h3)))
        · intro c2 hc2 _; cases hc2; exact hr
        · intro c2 hc2 hcon; cases hc2; rw [h] at hcon; cases hcon
        · intro u hu; cases hu
      · have hf : intentLabels.contains (pyStrip c) = false := by
          simpa using h
        have hr : recognizeIntent (.ok c) = UNKNOWN := by
          simp only [recognizeIntent, hf, Bool.false_eq_true, if_false]
        refine ⟨Or.inr (Or.inr (Or.inr hr)), ?_, ?_, ?_⟩
        · intro c2 hc2 hcon; cases hc2; rw [hf] at hcon; cases hcon
        · intro c2 hc2 _; cases hc2; exact hr
        · intro u hu; cases hu

/-- C5 witness: a labelled reply (with surrounding whitespace) and an
upstream failure, evaluated through the amended theorem. -/
theorem c5_intent_labels_witness :
    recognizeIntent (.ok " 非时间相关 ") = pyStrip " 非时间相关 " ∧
    recognizeIntent (.error ()) = UNKNOWN :=
  ⟨(c5_intent_labels_amended (.ok " 非时间相关 ")).2.1 " 非时间相关 " rfl (by decide),
   (c5_intent_labels_amended (.error ())).2.2.2 () rfl⟩

/-- C6 counterexample: the claim as stated is false. On a failing upstream
complete call, should_use_tool returns next = "direct_answer", and the
graph's conditional edge routes that to the answer node — the run's visited
nodes are ["decision", "answer"], so the ANSWER state is not skipped. -/
theorem c6_decision_error_counterexample :
    runGeneralAgent (.error "connection error") (.ok "unused")
        { messages := [], user_input := some "你好" } =
      .ok ({ messages := [{ role := "user", content := some "你好" },
                          { role := "assistant",
                            content := some (upstreamErrText "connection error") }],
             user_input := some "你好",
             next := "direct_answer",
             ai_response := some (upstreamErrText "connection error") },
            ["decision", "answer"]) ∧
    ["decision", "answer"].contains "answer" = true := ⟨by decide, by decide⟩

/-- C6 amended: on a failing upstream complete call in DECISION, the step
appends the user message (without the duplicate check) and an assistant
error reply, appends no tool-role message, and routes through the ANSWER
node — which leaves the messages unchanged because the trailing message is
already assistant-role — before terminating. -/
theorem c6_decision_error_amended (e : String) (sumResp : Except String String) (st : GState) :
    ∃ s2 : GState,
      runGeneralAgent (.error e) sumResp st = .ok (s2, ["decision", "answer"]) ∧
      s2.messages = (shouldUseTool (.error e) st).messages ∧
      (shouldUseTool (.error e) st).messages =
        appendUserRaw st.messages st.user_input ++
          [{ role := "assistant", content := some (upstreamErrText e) }] ∧
      (∃ pre, appendUserRaw st.messages st.user_input = st.messages ++ pre ∧
        ∀ m ∈ pre, m.role = "user") ∧
      s2.ai_response = some (upstreamErrText e) := by
  have hs1 : shouldUseTool (.error e) st =
      { st with
        messages := appendUserRaw st.messages st.user_input ++
          [{ role := "assistant", content := some (upstreamErrText e) }],
        next := "direct_answer",
        ai_response := some (upstreamErrText e) } := rfl
  refine ⟨{ st with
        messages := appendUserRaw st.messages st.user_input ++
          [{ role := "assistant", content := some (upstreamErrText e) }],
        next := "direct_answer",
        ai_response := some (upstreamErrText e) }, ?_, rfl, rfl, ?_, rfl⟩
  · unfold runGeneralAgent
    rw [hs1]
    have hne : (("direct_answer" : String) == "tool") = false := by decide
    simp only [hne, Bool.false_eq_true, if_false]
    unfold generateAnswer
    rw [List.getLast?_concat]
    rfl
  · cases hui : st.user_input with
    | none => exact ⟨[], by simp [appendUserRaw], by intro m hm; cases hm⟩
    | some u =>
        by_cases hu : u ≠ ""
        · refine ⟨[{ role := "user", content := some u }], ?_, ?_⟩
          · simp [appendUserRaw, hu]
          · intro m hm
            rcases List.mem_singleton.mp hm with rfl
            rfl
        · refine ⟨[], ?_, by intro m hm; cases hm⟩
          simp at hu
          simp [appendUserRaw, hu]

/-- C6 witness: the amended behavior at a concrete failing state. -/
theorem c6_decision_error_witness :
    ∃ s2 : GState,
      runGeneralAgent (.error "boom") (.ok "unused")
          { messages := [], user_input := some "math" } = .ok (s2, ["decision", "answer"]) ∧
      s2.messages = (shouldUseTool (.error "boom")
          { messages := [], user_input := some "math" }).messages ∧
      (shouldUseTool (.error "boom") { messages := [], user_input := some "math" }).messages =
        appendUserRaw [] (some "math") ++
          [{ role := "assistant", content := some (upstreamErrText "boom") }] ∧
      (∃ pre, appendUserRaw [] (some "math") = [] ++ pre ∧ ∀ m ∈ pre, m.role = "user") ∧
      s2.ai_response = some (upstreamErrText "boom") :=
  c6_decision_error_amended "boom" (.ok "unused") { messages := [], user_input := some "math" }

/-- C7: for every model response carrying one or more tool calls, the TOOL
step honors only the first: execute_tool appends exactly one tool-role
message, built by invoking the registry on the head tool call alone — the
remaining descriptors do not appear in the result. -/
theorem c7_first_tool_call (st : GState) (ms : List GMsg) (lm : GMsg)
    (c : GToolCall) (rest : List GToolCall)
    (hms : st.messages = ms ++ [lm]) (htc : lm.tool_calls = c :: rest) :
    executeTool st = { st with messages := st.messages ++ [execToolMsg c] } ∧
    (execToolMsg c).role = "tool" := by
  constructor
  · unfold executeTool
    rw [hms]
    simp only [List.getLast?_concat, htc]
  · unfold execToolMsg
    cases h : handleToolCall c.name (execArgs c) <;> rfl

/-- C7 witness: an assistant message carrying two tool calls produces one
tool message for the calculator call; the weather call is ignored. -/
theorem c7_first_tool_call_witness :
    executeTool
      { messages := [{ role := "assistant",
                       tool_calls := [{ name := "calculate", arguments := .ok [("expression", PyVal.pstr "2+2")] },
                                      { name := "get_weather", arguments := .ok [] }] }] } =
      { messages := [{ role := "assistant",
                       tool_calls := [{ name := "calculate", arguments := .ok [("expression", PyVal.pstr "2+2")] },
                                      { name := "get_weather", arguments := .ok [] }] },
                     execToolMsg { name := "calculate", arguments := .ok [("expression", PyVal.pstr "2+2")] }] } ∧
    (execToolMsg { name := "calculate", arguments := .ok [("expression", PyVal.pstr "2+2")] }).role = "tool" :=
  c7_first_tool_call _ [] _ _ [{ name := "get_weather", arguments := .ok [] }] rfl rfl

/-- C8 counterexample: the claim as stated is false. handle_tool_call has
no try/except of its own, so an exception inside an invoked tool's
function propagates: the stock tool's `exchange.upper()` on a non-string
exchange argument raises an AttributeError that escapes the registry
invocation instead of becoming a structured failure. -/
theorem c8_registry_counterexample :
    handleToolCall "get_stock_info" [("symbol", PyVal.pstr "600000"), ("exchange", PyVal.pint 5)] =
      .error "\x27int\x27 object has no attribute \x27upper\x27" := rfl

/-- C8 amended: an absent tool name yields the structured not-found
failure; the calculator catches all of its internal errors and the weather
mock is total, so invoking either never raises — but handle_tool_call
itself adds no exception handling, so a tool-internal exception (as in the
counterexample) propagates to the caller. -/
theorem c8_registry_amended (name : String) (params : List (String × PyVal)) :
    (registryLookup name = none →
      handleToolCall name params =
        .ok { success := false, error := some ("工具 " ++ name ++ " 不存在") }) ∧
    exceptIsOk (handleToolCall "calculate" params) = true ∧
    exceptIsOk (handleToolCall "get_weather" params) = true := by
  refine ⟨?_, rfl, rfl⟩
  intro h
  unfold handleToolCall
  rw [h]

/-- C8 witness: the not-found branch and the calculator branch evaluated
at concrete inputs through the amended theorem. -/
theorem c8_registry_witness :
    handleToolCall "no_such_tool" [] =
      .ok { success := false, error := some ("工具 " ++ "no_such_tool" ++ " 不存在") } ∧
    exceptIsOk (handleToolCall "calculate" []) = true :=
  ⟨(c8_registry_amended "no_such_tool" []).1 rfl, (c8_registry_amended "no_such_tool" []).2.1⟩

/-- C9: the calculator rejects, with a structured character-rejection
failure and without evaluating, every expression containing a character
outside the allow-list; calculate("2+3*4") succeeds with the integer
result 14; calculate("2+DROP") fails with the character-rejection error
for D; calculate("1/0") fails with an error whose text references
division. -/
theorem c9_calculator_allowlist :
    (∀ expr : String, expr.toList.any (fun c => !(allowedChars.contains c)) = true →
      ∃ c : Char, allowedChars.contains c = false ∧
        calculatorCall [("expression", PyVal.pstr expr)] =
          { success := false, error := some ("不允许的字符: " ++ String.singleton c) }) ∧
    calculatorCall [("expression", PyVal.pstr "2+3*4")] =
      { success := true, data := [("expression", PyVal.pstr "2+3*4"), ("result", PyVal.pint 14)] } ∧
    calculatorCall [("expression", PyVal.pstr "2+DROP")] =
      { success := false, error := some "不允许的字符: D" } ∧
    calculatorCall [("expression", PyVal.pstr "1/0")] =
      { success := false, error := some "计算错误: division by zero" } ∧
    strContains "计算错误: division by zero" "division" = true := by
  refine ⟨?_, by decide, by decide, by decide, by decide⟩
  intro expr h
  have hsome : (expr.toList.find? (fun c => !(allowedChars.contains c))).isSome := by
    rw [List.find?_isSome]
    obtain ⟨x, hx, hpx⟩ := List.any_eq_true.mp h
    exact ⟨x, hx, hpx⟩
  obtain ⟨c, hfind⟩ := Option.isSome_iff_exists.mp hsome
  have hc := List.find?_some hfind
  refine ⟨c, by simpa using hc, ?_⟩
  unfold calculatorCall
  have hget : getParam [("expression", PyVal.pstr expr)] "expression" (PyVal.pstr "") =
      PyVal.pstr expr := rfl
  rw [hget]
  simp only [hfind]

/-- C9 witness: the universal rejection applied to the concrete input
"2+DROP". -/
theorem c9_calculator_allowlist_witness :
    ∃ c : Char, allowedChars.contains c = false ∧
      calculatorCall [("expression", PyVal.pstr "2+DROP")] =
        { success := false, error := some ("不允许的字符: " ++ String.singleton c) } :=
  c9_calculator_allowlist.1 "2+DROP" (by decide)

/-- C10: get_current_time always returns a dictionary and never raises:
for a timezone outside the pytz table the result's keys are exactly
["error", "valid_timezones"] (so no time fields), and for a valid timezone
with format "both" the result carries both a "time" and a "date" key. -/
theorem c10_get_current_time_shape (zs : List String) (clock : String → Now)
    (tz : String) (fmt : Option String) :
    (zs.contains tz = false →
      (getCurrentTime zs clock tz fmt).map Prod.fst = ["error", "valid_timezones"]) ∧
    (zs.contains tz = true → fmt = some "both" →
      hasKey (getCurrentTime zs clock tz fmt) "time" = true ∧
      hasKey (getCurrentTime zs clock tz fmt) "date" = true) := by
  constructor
  · intro h
    unfold getCurrentTime
    rw [h]
    rfl
  · intro h hf
    subst hf
    unfold getCurrentTime
    rw [h]
    simp [hasKey]

/-- C10 witness: the invalid-timezone and the valid-both cases evaluated
at concrete inputs through the theorem. -/
theorem c10_get_current_time_witness :
    (getCurrentTime ["Asia/Shanghai"] (fun _ => sampleNow) "Bad/Zone" (some "both")).map Prod.fst =
      ["error", "valid_timezones"] ∧
    hasKey (getCurrentTime ["Asia/Shanghai"] (fun _ => sampleNow) "Asia/Shanghai" (some "both")) "time" = true ∧
    hasKey (getCurrentTime ["Asia/Shanghai"] (fun _ => sampleNow) "Asia/Shanghai" (some "both")) "date" = true :=
  ⟨(c10_get_current_time_shape ["Asia/Shanghai"] (fun _ => sampleNow) "Bad/Zone" (some "both")).1 (by decide),
   (c10_get_current_time_shape ["Asia/Shanghai"] (fun _ => sampleNow) "Asia/Shanghai" (some "both")).2 (by decide) rfl⟩
